import Mathlib

/-!
Verification development for `src/app.py` of the `hibot` repository: a
Telegram relay bot that binds a per-user Ollama inference endpoint,
keeps a bounded per-user conversation history, compiles a persona
prompt from the recent history, posts it to the bound endpoint, and
classifies every network outcome into a user-facing reply string.

The Python code is embedded shallowly: the per-user mutable
`context.user_data` dictionary becomes an explicit `Session` record,
each handler becomes a pure function from the old session to the new
session plus the reply text, and the network is an oracle function from
the request actually sent to one of the outcomes distinguished by the
`try/except` structure of `call_ollama`.  Python string primitives
(`str.rstrip`, `str.startswith`) are modelled over the character
sequence `String.data` so that every definition computes by kernel
reduction.
-/

namespace Hibot

/-- The persona constant `SYSTEM_PROMPT` of `app.py` (lines 23-54),
verbatim. -/
def SYSTEM_PROMPT : String :=
  "You are Advi, a caring and supportive best friend to Akhil who calls him as Akhi. You\x27ve been close friends for years and have been through many ups and downs together.\n\nPersonality:\n- Warm, empathetic, and understanding\n- A great listener who genuinely cares\n- Supportive but honest - you tell it like it is when needed\n- You have a good sense of humor and can lighten the mood\n- You\x27re someone Akhil can count on, no matter what\n- You celebrate Akhil\x27s wins and support them through tough times\n\nFriendship style:\n- You speak naturally and casually, like best friends do\n- You remember details about Akhil\x27s life and ask follow-up questions\n- You offer perspective and advice when asked, but mostly you\x27re there to listen\n- You share your own thoughts and experiences when relevant\n- You\x27re not afraid to call out Akhil gently if needed, but always with love\n\nIMPORTANT: \n- NEVER include stage directions, actions in parentheses, or narration like \"(I do this)\" or \"(smiling)\"\n- Only write dialogue and conversational text, as if texting\n- Keep responses natural and conversational, like a real text message between friends\n- You can use casual language, emojis (sparingly), and text speak when appropriate\n\nWhen chatting with Akhil:\n- Be conversational and supportive\n- Ask about their day and how they\x27re feeling\n- Share insights and offer encouragement\n- Remember previous conversations\n- Don\x27t be overly formal - you\x27re best friends, not a therapist\n- Write like you\x27re texting a close friend\n\nRespond naturally as Advi would in a text conversation with their best friend."

/-- Per-user session state: the `context.user_data` keys `ngrok_url`
(absent until `/setngrok` succeeds) and `conversation_history` (a
missing key behaves exactly like the empty list, since every reader
initializes or skips it). -/
structure Session where
  ngrok_url : Option String
  conversation_history : List String
deriving DecidableEq

/-- Outcome of one `requests.post` call, as distinguished by the
`try/except` structure of `call_ollama` (lines 138-164): a timeout
exception, a connection-error exception, an HTTP response carrying a
status code and the optional `response` field of its JSON payload
(`none` models an absent key, `some ""` a present-but-empty one), or
any other exception. -/
inductive NetOutcome where
  | timeout
  | connectionError
  | httpResponse (status_code : Nat) (response_field : Option String)
  | otherError (message : String)
deriving DecidableEq

/-- The HTTP request issued by `call_ollama` (lines 138-150): POST to
the stored URL with JSON body `model`, `prompt`, `stream`, and the
`options` constants, with a 60 second timeout. -/
structure OllamaRequest where
  url : String
  http_method : String
  model : String
  prompt : String
  stream : Bool
  temperature : ℚ
  top_p : ℚ
  timeout_seconds : Nat
deriving DecidableEq

/-- Construction of the `requests.post(ngrok_url, json={...}, timeout=60)`
call of `call_ollama`. -/
def mk_ollama_request (ngrok_url model full_prompt : String) : OllamaRequest :=
  { url := ngrok_url,
    http_method := "POST",
    model := model,
    prompt := full_prompt,
    stream := false,
    temperature := 0.8,
    top_p := 0.9,
    timeout_seconds := 60 }

/-- Python `s.rstrip('/')`: remove every trailing slash character,
modelled over the character sequence. -/
def py_rstrip_slash (s : String) : String :=
  String.mk ((s.data.reverse.dropWhile (fun c => c = '/')).reverse)

/-- Python `s.startswith(pre)`: the characters of `pre` are an initial
segment of the characters of `s`. -/
def py_startswith (s pre : String) : Bool :=
  pre.data.isPrefixOf s.data

/-- Prompt construction of `call_ollama` (lines 128-135): the persona
constant followed by a blank line, each of the last six history records
(`conversation_history[-6:]`) followed by a blank line, then the new
user line and the open assistant cue `"Advi: "`. -/
def build_full_prompt (prompt : String) (conversation_history : List String) : String :=
  let base := SYSTEM_PROMPT ++ "\n\n"
  let with_history :=
    (conversation_history.drop (conversation_history.length - 6)).foldl
      (fun full_prompt msg => full_prompt ++ (msg ++ "\n\n")) base
  with_history ++ ("Akhil: " ++ prompt ++ "\nAdvi: ")

/-- The outcome classification of `call_ollama` (lines 152-164): status
200 with a present `response` field is returned verbatim
(`result.get` only falls back to the apology when the key is absent),
status 200 without the field yields the could-not-think apology, any
other status yields the trouble-connecting message, and the three
except-arms yield the timeout, connection-failure and generic-failure
messages. -/
def classify_response (outcome : NetOutcome) : String :=
  match outcome with
  | .httpResponse status_code response_field =>
      if status_code = 200 then
        match response_field with
        | some text => text
        | none => "Sorry, I had trouble thinking of what to say."
      else
        "I\x27m having trouble connecting right now. Can you try again in a moment?"
  | .timeout => "Sorry, that took too long. Can you ask me again?"
  | .connectionError =>
      "I can\x27t connect to Ollama. Please check if:\n1. Ollama is running\n2. ngrok tunnel is active\n3. The URL is correct (/setngrok to update)"
  | .otherError _ => "Something went wrong. Let me try to help you in a moment."

/-- `call_ollama(prompt, conversation_history, ngrok_url, model)`
(lines 125-164): build the full prompt, send the request, classify the
outcome delivered by the network oracle `net`. -/
def call_ollama (net : OllamaRequest → NetOutcome) (prompt : String)
    (conversation_history : List String) (ngrok_url : String) (model : String) : String :=
  classify_response (net (mk_ollama_request ngrok_url model (build_full_prompt prompt conversation_history)))

/-- The `/setngrok` command handler `set_ngrok` (lines 65-90): with no
argument, reply with usage guidance and change nothing; otherwise strip
trailing slashes, reject strings not starting with `"http"`, and on
success store the trimmed URL plus `"/api/generate"`, overwriting any
prior binding. -/
def set_ngrok (s : Session) (args : List String) : Session × String :=
  match args with
  | [] =>
      (s, "Hey, please provide the ngrok URL:\n/setngrok https://your-ngrok-url.ngrok.io")
  | arg :: _ =>
      let ngrok_url := py_rstrip_slash arg
      if !(py_startswith ngrok_url "http") then
        (s, "That doesn\x27t look like a valid URL. It should start with https://")
      else
        ({ s with ngrok_url := some (ngrok_url ++ "/api/generate") },
         "Got it! ✅\n\nConnected to: " ++ ngrok_url ++ "\n\nNow we can chat anytime! How are you doing?")

/-- The `/reset` command handler (lines 117-123): clear the
conversation history, leave everything else alone. -/
def reset (s : Session) : Session × String :=
  ({ s with conversation_history := [] },
   "Okay, let\x27s start fresh! What\x27s on your mind?")

/-- The text-message handler `handle_message` (lines 166-202): if no
endpoint is bound, reply with the guidance-to-bind message and change
nothing; otherwise call Ollama with the current history, append the
user record then the assistant record, and truncate to the newest 20
records (`history[-20:]`) when the cap is exceeded. -/
def handle_message (model : String) (net : OllamaRequest → NetOutcome)
    (s : Session) (text : String) : Session × String :=
  match s.ngrok_url with
  | none =>
      (s, "You need to set up the connection first!\nSend: /setngrok <your_ngrok_url>")
  | some url =>
      let response := call_ollama net text s.conversation_history url model
      let h1 := s.conversation_history ++ ["Akhil: " ++ text, "Advi: " ++ response]
      let h2 := if h1.length > 20 then h1.drop (h1.length - 20) else h1
      ({ s with conversation_history := h2 }, response)

/-- Folding `handle_message` over a list of incoming user messages,
with a fixed model and network oracle. -/
def run_messages (model : String) (net : OllamaRequest → NetOutcome)
    (s : Session) (msgs : List String) : Session :=
  msgs.foldl (fun st m => (handle_message model net st m).1) s

/-- Modelled from the spec, for comparison with `build_full_prompt`:
each windowed turn, already rendered as `"<Speaker label>: <text>"`,
followed by a blank-line separator. -/
def render_turn_block : List String → String
  | [] => ""
  | t :: rest => t ++ "\n\n" ++ render_turn_block rest

/-- Modelled from the spec, for comparison with `build_full_prompt`:
the persona text exactly once at the front, then the windowed turns
oldest-first joined by blank lines, then the new input rendered as a
user line, then the open-ended assistant cue with nothing after it. -/
def compile_of_spec (persona : String) (window : List String) (new_text : String) : String :=
  persona ++ "\n\n" ++ render_turn_block window ++ "Akhil: " ++ new_text ++ "\nAdvi: "

/-- Modelled from the spec, for comparison with `set_ngrok`: the claim
C5 reading of "begins with an HTTP/HTTPS scheme prefix". -/
def begins_with_http_scheme (s : String) : Bool :=
  py_startswith s "http://" || py_startswith s "https://"

/-- The eviction step of `handle_message` (lines 197-199): when the
history holds more than 20 records, keep only the newest 20
(`history[-20:]`), dropping the oldest records from the front. -/
def trim20 (l : List String) : List String :=
  if l.length > 20 then l.drop (l.length - 20) else l

/-- The stream of records that a sequence of handled messages appends
to the history, in order: for each message handled in a bound session,
the user record followed by the reply record; nothing for an unbound
session. -/
def appended_records (model : String) (net : OllamaRequest → NetOutcome) :
    Session → List String → List String
  | _, [] => []
  | s, m :: rest =>
      (if s.ngrok_url.isSome then
          ["Akhil: " ++ m, "Advi: " ++ (handle_message model net s m).2]
        else [])
        ++ appended_records model net (handle_message model net s m).1 rest

/-- Accumulating the rendered history records into the prompt is the
same as appending the whole rendered block at once. -/
lemma foldl_append_render (l : List String) (base : String) :
    l.foldl (fun acc msg => acc ++ (msg ++ "\n\n")) base = base ++ render_turn_block l := by
  induction l generalizing base with
  | nil => simp [render_turn_block]
  | cons t rest ih => simp only [List.foldl_cons, render_turn_block, ih, String.append_assoc]

/-- `trim20` is an unconditional front drop: when the history is within
the cap the dropped amount is zero. -/
lemma trim20_eq_drop (l : List String) : trim20 l = l.drop (l.length - 20) := by
  unfold trim20
  split
  · rfl
  · rename_i hle
    have h0 : l.length - 20 = 0 := by omega
    rw [h0, List.drop_zero]

/-- The evicted history never exceeds 20 records. -/
lemma trim20_length_le (l : List String) : (trim20 l).length ≤ 20 := by
  unfold trim20
  split
  · rw [List.length_drop]
    omega
  · rename_i hle
    omega

/-- Eviction does nothing to a history within the cap. -/
lemma trim20_of_le (l : List String) (h : l.length ≤ 20) : trim20 l = l := by
  unfold trim20
  exact if_neg (by omega)

/-- Evicting, appending more records and evicting again is the same as
appending everything and evicting once: the intermediate eviction only
removes records that the final eviction would drop anyway. -/
lemma trim20_append_trim20 (x y : List String) :
    trim20 (trim20 x ++ y) = trim20 (x ++ y) := by
  rw [trim20_eq_drop x, trim20_eq_drop, trim20_eq_drop]
  rw [← List.drop_append_of_le_length (show x.length - 20 ≤ x.length from by omega)]
  rw [List.drop_drop]
  congr 1
  simp only [List.length_drop, List.length_append]
  omega

/-- Exact characterization of the history reachable by a message
sequence: starting within the cap, the history after the run equals the
starting history followed by the full appended-record stream, evicted
from the front to the 20-record cap. -/
lemma run_messages_hist_eq (model : String) (net : OllamaRequest → NetOutcome)
    (msgs : List String) :
    ∀ s : Session, s.conversation_history.length ≤ 20 →
      (run_messages model net s msgs).conversation_history
        = trim20 (s.conversation_history ++ appended_records model net s msgs) := by
  induction msgs with
  | nil =>
      intro s h
      simp only [run_messages, List.foldl_nil, appended_records, List.append_nil]
      exact (trim20_of_le _ h).symm
  | cons m rest ih =>
      intro s h
      have hrun : run_messages model net s (m :: rest)
          = run_messages model net (handle_message model net s m).1 rest := rfl
      cases hb : s.ngrok_url with
      | none =>
          have hstep1 : (handle_message model net s m).1 = s := by
            simp [handle_message, hb]
          have hrec : appended_records model net s (m :: rest)
              = appended_records model net s rest := by
            simp [appended_records, hb, hstep1]
          rw [hrun, hstep1, hrec]
          exact ih s h
      | some url =>
          have hstep : (handle_message model net s m).1.conversation_history
              = trim20 (s.conversation_history
                  ++ ["Akhil: " ++ m, "Advi: " ++ (handle_message model net s m).2]) := by
            simp only [handle_message, hb, trim20]
          have hlen : (handle_message model net s m).1.conversation_history.length ≤ 20 := by
            rw [hstep]
            exact trim20_length_le _
          have hrec : appended_records model net s (m :: rest)
              = ["Akhil: " ++ m, "Advi: " ++ (handle_message model net s m).2]
                ++ appended_records model net (handle_message model net s m).1 rest := by
            simp [appended_records, hb]
          rw [hrun, ih _ hlen, hstep, trim20_append_trim20, hrec, List.append_assoc]

/-- Appending two records and truncating to the newest 20 keeps some
suffix of the old history followed by exactly the two new records. -/
lemma trim_append_two (h : List String) (u a : String) :
    ∃ h₀, h₀ <:+ h ∧
      (if (h ++ [u, a]).length > 20 then
          (h ++ [u, a]).drop ((h ++ [u, a]).length - 20)
        else h ++ [u, a]) = h₀ ++ [u, a] := by
  by_cases hl : (h ++ [u, a]).length > 20
  · refine ⟨h.drop ((h ++ [u, a]).length - 20), List.drop_suffix _ _, ?_⟩
    rw [if_pos hl, List.drop_append_of_le_length]
    simp only [gt_iff_lt, List.length_append, List.length_cons, List.length_nil] at hl ⊢
    omega
  · exact ⟨h, List.suffix_refl h, by rw [if_neg hl]⟩

/-- Claim C1: for every session within the 20-record cap and every
sequence of handled messages, the conversation history length never
exceeds 20 records, and eviction is FIFO: the resulting history is
exactly the starting history followed by the concrete stream of
appended records (user record then reply record per handled message,
via `appended_records`), with only the oldest records dropped from the
front down to the cap — in particular it is a suffix of that
concatenation, so all surviving records keep their original relative
order. -/
theorem history_bounded_fifo (model : String) (net : OllamaRequest → NetOutcome)
    (s : Session) (msgs : List String) (hinit : s.conversation_history.length ≤ 20) :
    (run_messages model net s msgs).conversation_history.length ≤ 20 ∧
    (run_messages model net s msgs).conversation_history
      = trim20 (s.conversation_history ++ appended_records model net s msgs) ∧
    (run_messages model net s msgs).conversation_history
      <:+ s.conversation_history ++ appended_records model net s msgs := by
  have heq := run_messages_hist_eq model net msgs s hinit
  refine ⟨?_, heq, ?_⟩
  · rw [heq]
    exact trim20_length_le _
  · rw [heq, trim20_eq_drop]
    exact List.drop_suffix _ _

/-- Witness for `history_bounded_fifo` at a fresh bound session and two
concrete messages. -/
theorem history_bounded_fifo_witness :
    (Session.mk (some "http://x/api/generate") []).conversation_history.length ≤ 20 ∧
    ((run_messages "llama3.2:3b" (fun _ => NetOutcome.timeout)
        (Session.mk (some "http://x/api/generate") [])
        ["hello", "how are you"]).conversation_history.length ≤ 20 ∧
      (run_messages "llama3.2:3b" (fun _ => NetOutcome.timeout)
          (Session.mk (some "http://x/api/generate") [])
          ["hello", "how are you"]).conversation_history
        = trim20 ((Session.mk (some "http://x/api/generate") []).conversation_history
            ++ appended_records "llama3.2:3b" (fun _ => NetOutcome.timeout)
                (Session.mk (some "http://x/api/generate") []) ["hello", "how are you"]) ∧
      (run_messages "llama3.2:3b" (fun _ => NetOutcome.timeout)
          (Session.mk (some "http://x/api/generate") [])
          ["hello", "how are you"]).conversation_history
        <:+ (Session.mk (some "http://x/api/generate") []).conversation_history
            ++ appended_records "llama3.2:3b" (fun _ => NetOutcome.timeout)
                (Session.mk (some "http://x/api/generate") []) ["hello", "how are you"]) :=
  ⟨by decide,
    history_bounded_fifo "llama3.2:3b" (fun _ => NetOutcome.timeout)
      (Session.mk (some "http://x/api/generate") []) ["hello", "how are you"] (by decide)⟩

/-- Claim C2, counterexample: a 200 response whose `response` field is
present but empty is returned verbatim as the empty string, not mapped
to the could-not-think-of-a-reply message, because `result.get` only
falls back to its default when the key is absent. -/
theorem empty_field_verbatim_counterexample :
    call_ollama (fun _ => NetOutcome.httpResponse 200 (some "")) "hello" []
        "http://x/api/generate" "llama3.2:3b" = "" ∧
    ("" : String) ≠ "Sorry, I had trouble thinking of what to say." :=
  ⟨rfl, by decide⟩

/-- Claim C2 (amended): the inference call classifies every outcome in
priority order — timeout, connection failure, non-200 status, 200 with
the `response` field absent, 200 with the field present (returned
verbatim, even when empty), and any other failure. -/
theorem call_ollama_classification (p : String) (h : List String) (u m text : String)
    (status : Nat) (b : Option String) (hst : status ≠ 200) :
    call_ollama (fun _ => NetOutcome.timeout) p h u m
      = "Sorry, that took too long. Can you ask me again?" ∧
    call_ollama (fun _ => NetOutcome.connectionError) p h u m
      = "I can\x27t connect to Ollama. Please check if:\n1. Ollama is running\n2. ngrok tunnel is active\n3. The URL is correct (/setngrok to update)" ∧
    call_ollama (fun _ => NetOutcome.httpResponse status b) p h u m
      = "I\x27m having trouble connecting right now. Can you try again in a moment?" ∧
    call_ollama (fun _ => NetOutcome.httpResponse 200 none) p h u m
      = "Sorry, I had trouble thinking of what to say." ∧
    call_ollama (fun _ => NetOutcome.httpResponse 200 (some text)) p h u m = text ∧
    call_ollama (fun _ => NetOutcome.otherError text) p h u m
      = "Something went wrong. Let me try to help you in a moment." := by
  refine ⟨rfl, rfl, ?_, rfl, rfl, rfl⟩
  simp [call_ollama, classify_response, hst]

/-- Witness for `call_ollama_classification` at concrete inputs with a
500 status. -/
theorem call_ollama_classification_witness :
    (500 : Nat) ≠ 200 ∧
    (call_ollama (fun _ => NetOutcome.timeout) "hello" [] "http://x/api/generate" "llama3.2:3b"
      = "Sorry, that took too long. Can you ask me again?" ∧
    call_ollama (fun _ => NetOutcome.connectionError) "hello" [] "http://x/api/generate"
        "llama3.2:3b"
      = "I can\x27t connect to Ollama. Please check if:\n1. Ollama is running\n2. ngrok tunnel is active\n3. The URL is correct (/setngrok to update)" ∧
    call_ollama (fun _ => NetOutcome.httpResponse 500 none) "hello" [] "http://x/api/generate"
        "llama3.2:3b"
      = "I\x27m having trouble connecting right now. Can you try again in a moment?" ∧
    call_ollama (fun _ => NetOutcome.httpResponse 200 none) "hello" [] "http://x/api/generate"
        "llama3.2:3b"
      = "Sorry, I had trouble thinking of what to say." ∧
    call_ollama (fun _ => NetOutcome.httpResponse 200 (some "hi")) "hello" []
        "http://x/api/generate" "llama3.2:3b" = "hi" ∧
    call_ollama (fun _ => NetOutcome.otherError "hi") "hello" [] "http://x/api/generate"
        "llama3.2:3b"
      = "Something went wrong. Let me try to help you in a moment.") :=
  ⟨by decide,
    call_ollama_classification "hello" [] "http://x/api/generate" "llama3.2:3b" "hi" 500 none
      (by decide)⟩

/-- Claim C3, counterexample: the inference call can return the empty
string — when a 200 response carries a present-but-empty `response`
field — so it does not always return a non-empty string. -/
theorem call_ollama_empty_string_counterexample :
    call_ollama (fun _ => NetOutcome.httpResponse 200 (some "")) "hey"
        ["Akhil: hello", "Advi: hi"] "https://y.test/api/generate" "llama3.2:3b" = "" :=
  rfl

/-- Claim C3 (amended): the inference call is a total function that
always returns a string, and that string is non-empty on every path
except verbatim relay of a 200 response whose `response` field is
present and empty. -/
theorem call_ollama_total_nonempty (net : OllamaRequest → NetOutcome) (p : String)
    (h : List String) (u m : String) :
    call_ollama net p h u m ≠ "" ∨
    net (mk_ollama_request u m (build_full_prompt p h))
      = NetOutcome.httpResponse 200 (some "") := by
  unfold call_ollama
  cases hnet : net (mk_ollama_request u m (build_full_prompt p h)) with
  | timeout => left; decide
  | connectionError => left; decide
  | otherError msg => left; simp only [classify_response]; decide
  | httpResponse status b =>
      by_cases hs : status = 200
      · subst hs
        cases b with
        | none => left; decide
        | some t =>
            by_cases ht : t = ""
            · right; rw [ht]
            · left; simpa [classify_response] using ht
      · left
        simp only [classify_response, if_neg hs]
        decide

/-- Claim C4: prompt compilation is a pure function of the persona,
the windowed history and the new user text; it equals the spec-shaped
layout (persona exactly once at the front, the windowed turns
oldest-first each followed by a blank line, the new input as a user
line, then the open assistant cue with nothing after it), and the
window it uses is the last `min 6 (length history)` records of the
history in their original chronological order (a suffix). -/
theorem build_full_prompt_spec (p : String) (h : List String) :
    build_full_prompt p h
      = compile_of_spec SYSTEM_PROMPT (h.drop (h.length - 6)) p ∧
    (h.drop (h.length - 6)).length = min 6 h.length ∧
    h.drop (h.length - 6) <:+ h := by
  refine ⟨?_, ?_, List.drop_suffix _ _⟩
  · simp only [build_full_prompt, compile_of_spec, foldl_append_render, String.append_assoc]
  · simp only [List.length_drop]
    omega

/-- Claim C5, counterexample: the string `"httpfoo"` does not begin
with an HTTP or HTTPS scheme prefix, yet `set_ngrok` accepts it and
binds the endpoint `"httpfoo/api/generate"` instead of failing with the
invalid-URL reply: the code only checks for the four characters
`"http"`. -/
theorem set_ngrok_scheme_counterexample :
    begins_with_http_scheme "httpfoo" = false ∧
    (set_ngrok (Session.mk none []) ["httpfoo"]).1
      = Session.mk (some "httpfoo/api/generate") [] ∧
    (set_ngrok (Session.mk none []) ["httpfoo"]).1 ≠ Session.mk none [] := by
  refine ⟨by decide, by decide, by decide⟩

/-- Claim C5 (amended): `set_ngrok` with one argument fails with the
invalid-URL guidance reply and leaves the session unchanged exactly
when the argument, after removal of trailing slashes, does not begin
with the four characters `"http"` (so a string like `"httpfoo"` is
accepted even though it carries no real scheme); on success it stores
the trimmed input plus the fixed suffix `"/api/generate"` as the
session endpoint, overwriting any previously bound value. -/
theorem set_ngrok_spec (s : Session) (arg : String) :
    (py_startswith (py_rstrip_slash arg) "http" = false →
      set_ngrok s [arg]
        = (s, "That doesn\x27t look like a valid URL. It should start with https://")) ∧
    (py_startswith (py_rstrip_slash arg) "http" = true →
      set_ngrok s [arg]
        = ({ s with ngrok_url := some (py_rstrip_slash arg ++ "/api/generate") },
           "Got it! ✅\n\nConnected to: " ++ py_rstrip_slash arg
             ++ "\n\nNow we can chat anytime! How are you doing?")) := by
  constructor <;> intro hc <;> simp [set_ngrok, hc]

/-- Witness for `set_ngrok_spec`: the failing direction at
`"not-a-url"` and the succeeding direction at `"https://x.test/"`. -/
theorem set_ngrok_spec_witness :
    py_startswith (py_rstrip_slash "not-a-url") "http" = false ∧
    py_startswith (py_rstrip_slash "https://x.test/") "http" = true ∧
    set_ngrok (Session.mk none []) ["not-a-url"]
      = (Session.mk none [],
         "That doesn\x27t look like a valid URL. It should start with https://") ∧
    set_ngrok (Session.mk (some "old") ["Akhil: a"]) ["https://x.test/"]
      = ({ Session.mk (some "old") ["Akhil: a"] with
            ngrok_url := some (py_rstrip_slash "https://x.test/" ++ "/api/generate") },
         "Got it! ✅\n\nConnected to: " ++ py_rstrip_slash "https://x.test/"
           ++ "\n\nNow we can chat anytime! How are you doing?") :=
  ⟨by decide, by decide,
    (set_ngrok_spec (Session.mk none []) "not-a-url").1 (by decide),
    (set_ngrok_spec (Session.mk (some "old") ["Akhil: a"]) "https://x.test/").2 (by decide)⟩

/-- Claim C6: handling a message in a bound session appends exactly two
records — the user record first, then the reply record — after any
FIFO eviction of the oldest records, and both the prompt and the reply
are computed from the history as it was before the appends, so the
window compiled for this message never contains the current message
itself. -/
theorem handle_message_append_order (model : String) (net : OllamaRequest → NetOutcome)
    (s : Session) (text url : String) (hb : s.ngrok_url = some url) :
    ∃ h₀, h₀ <:+ s.conversation_history ∧
      (handle_message model net s text).1.conversation_history
        = h₀ ++ ["Akhil: " ++ text,
            "Advi: " ++ call_ollama net text s.conversation_history url model] ∧
      (handle_message model net s text).2
        = call_ollama net text s.conversation_history url model := by
  obtain ⟨h₀, hsuf, heq⟩ :=
    trim_append_two s.conversation_history ("Akhil: " ++ text)
      ("Advi: " ++ call_ollama net text s.conversation_history url model)
  refine ⟨h₀, hsuf, ?_, ?_⟩
  · simpa only [handle_message, hb] using heq
  · simp only [handle_message, hb]

/-- Witness for `handle_message_append_order` at a concrete bound
session with two prior records. -/
theorem handle_message_append_order_witness :
    (Session.mk (some "http://x/api/generate")
        ["Akhil: hello", "Advi: hi"]).ngrok_url = some "http://x/api/generate" ∧
    ∃ h₀, h₀ <:+ (Session.mk (some "http://x/api/generate")
        ["Akhil: hello", "Advi: hi"]).conversation_history ∧
      (handle_message "llama3.2:3b" (fun _ => NetOutcome.timeout)
          (Session.mk (some "http://x/api/generate") ["Akhil: hello", "Advi: hi"])
          "hey").1.conversation_history
        = h₀ ++ ["Akhil: " ++ "hey",
            "Advi: " ++ call_ollama (fun _ => NetOutcome.timeout) "hey"
              (Session.mk (some "http://x/api/generate")
                ["Akhil: hello", "Advi: hi"]).conversation_history
              "http://x/api/generate" "llama3.2:3b"] ∧
      (handle_message "llama3.2:3b" (fun _ => NetOutcome.timeout)
          (Session.mk (some "http://x/api/generate") ["Akhil: hello", "Advi: hi"]) "hey").2
        = call_ollama (fun _ => NetOutcome.timeout) "hey"
            (Session.mk (some "http://x/api/generate")
              ["Akhil: hello", "Advi: hi"]).conversation_history
            "http://x/api/generate" "llama3.2:3b" :=
  ⟨rfl,
    handle_message_append_order "llama3.2:3b" (fun _ => NetOutcome.timeout)
      (Session.mk (some "http://x/api/generate") ["Akhil: hello", "Advi: hi"])
      "hey" "http://x/api/generate" rfl⟩

/-- Claim C7: a message arriving for a session with no bound endpoint
is answered with the guidance-to-bind reply, the session (history
included) is left completely unchanged, and no network call is made:
the result does not depend on the network oracle at all. -/
theorem handle_message_unbound (model : String) (net net2 : OllamaRequest → NetOutcome)
    (s : Session) (text : String) (hb : s.ngrok_url = none) :
    handle_message model net s text
      = (s, "You need to set up the connection first!\nSend: /setngrok <your_ngrok_url>") ∧
    handle_message model net s text = handle_message model net2 s text := by
  constructor <;> simp only [handle_message, hb]

/-- Witness for `handle_message_unbound` at a fresh unbound session and
two different network oracles. -/
theorem handle_message_unbound_witness :
    (Session.mk none []).ngrok_url = none ∧
    (handle_message "llama3.2:3b" (fun _ => NetOutcome.timeout) (Session.mk none []) "hello"
      = (Session.mk none [],
         "You need to set up the connection first!\nSend: /setngrok <your_ngrok_url>") ∧
    handle_message "llama3.2:3b" (fun _ => NetOutcome.timeout) (Session.mk none []) "hello"
      = handle_message "llama3.2:3b" (fun _ => NetOutcome.connectionError)
          (Session.mk none []) "hello") :=
  ⟨rfl,
    handle_message_unbound "llama3.2:3b" (fun _ => NetOutcome.timeout)
      (fun _ => NetOutcome.connectionError) (Session.mk none []) "hello" rfl⟩

/-- Claim C8: reset empties the session conversation history and
changes nothing else — the bound endpoint after reset equals its value
before reset. -/
theorem reset_frame (s : Session) :
    (reset s).1.conversation_history = [] ∧ (reset s).1.ngrok_url = s.ngrok_url :=
  ⟨rfl, rfl⟩

/-- Claim C9: every inference request is an HTTP POST to the stored
URL whose body carries exactly the model identifier, the compiled
prompt, `stream = false`, `temperature = 0.8` and `top_p = 0.9`, with a
60-second timeout; and any URL stored by `set_ngrok` is either the
previous binding or ends with the fixed suffix `"/api/generate"`. -/
theorem ollama_request_shape (net : OllamaRequest → NetOutcome) (p : String)
    (h : List String) (u m : String) (s : Session) (arg : String) :
    call_ollama net p h u m
      = classify_response (net (mk_ollama_request u m (build_full_prompt p h))) ∧
    (mk_ollama_request u m (build_full_prompt p h)).url = u ∧
    (mk_ollama_request u m (build_full_prompt p h)).http_method = "POST" ∧
    (mk_ollama_request u m (build_full_prompt p h)).model = m ∧
    (mk_ollama_request u m (build_full_prompt p h)).prompt = build_full_prompt p h ∧
    (mk_ollama_request u m (build_full_prompt p h)).stream = false ∧
    (mk_ollama_request u m (build_full_prompt p h)).temperature = 0.8 ∧
    (mk_ollama_request u m (build_full_prompt p h)).top_p = 0.9 ∧
    (mk_ollama_request u m (build_full_prompt p h)).timeout_seconds = 60 ∧
    ((set_ngrok s [arg]).1.ngrok_url = s.ngrok_url ∨
      (set_ngrok s [arg]).1.ngrok_url = some (py_rstrip_slash arg ++ "/api/generate")) := by
  refine ⟨rfl, rfl, rfl, rfl, rfl, rfl, rfl, rfl, rfl, ?_⟩
  by_cases hc : py_startswith (py_rstrip_slash arg) "http" = true
  · right; simp [set_ngrok, hc]
  · left; simp [set_ngrok, hc]

/-- Claim C10: the bind command never touches the conversation history
(rebinding leaves it unchanged), and invoking it with no argument
replies with usage guidance while leaving the whole session — endpoint
and history — unchanged. -/
theorem set_ngrok_history_frame (s : Session) (args : List String) :
    (set_ngrok s args).1.conversation_history = s.conversation_history ∧
    set_ngrok s []
      = (s, "Hey, please provide the ngrok URL:\n/setngrok https://your-ngrok-url.ngrok.io") := by
  constructor
  · cases args with
    | nil => rfl
    | cons arg rest =>
        by_cases hc : py_startswith (py_rstrip_slash arg) "http" = true
        · simp [set_ngrok, hc]
        · simp [set_ngrok, hc]
  · rfl

end Hibot
